import Mathlib

/-
Shallow embedding of the SEM-Planner keyword collector
(src/modules/keyword_collector.py and src/modules/llm_agent.py).

Python strings are modelled as Lean `String`; `str.strip()`, `str.lower()`
and the `in` substring test are re-implemented structurally on the
character list so that the kernel can evaluate them on concrete inputs.
All inputs in this development are ASCII, for which these models agree
with Python's semantics.
-/

/-- Model of Python `str.strip()`: drop leading and trailing whitespace. -/
def pyStrip (s : String) : String :=
  String.mk (((s.data.dropWhile Char.isWhitespace).reverse.dropWhile Char.isWhitespace).reverse)

/-- Model of Python `str.lower()` (ASCII case folding). -/
def pyLower (s : String) : String :=
  String.mk (s.data.map Char.toLower)

/-- Auxiliary: does `pat` occur as a contiguous sublist of `hay`? -/
def charsContain (hay pat : List Char) : Bool :=
  match hay with
  | [] => pat.isEmpty
  | _ :: t => pat.isPrefixOf hay || charsContain t pat

/-- Model of Python `pat in hay` for strings (substring containment). -/
def strContainsSub (hay pat : String) : Bool :=
  charsContain hay.data pat.data

/-
Result table extractor, src/modules/keyword_collector.py lines 507-565
(`extract_keywords_from_table`).  A page's tables are modelled as a list
of tables, a table as a list of rows, a row as the list of raw cell
texts returned by `cell.inner_text()` (the code then applies `.strip()`).
-/

/-- Record shape built at keyword_collector.py lines 546-551. -/
structure KeywordRecord where
  keyword : String
  monthly_volume : String
  cpc : String
  competition : String
deriving DecidableEq

/-- Header lexicon of line 533: `['keyword', 'search term', 'phrase', 'query']`. -/
def headerLexicon : List String := ["keyword", "search term", "phrase", "query"]

/-- Placeholder cell values of line 539: `['-', '–', '—', 'N/A']`. -/
def placeholderCells : List String := ["-", "–", "—", "N/A"]

/-- Discard lexicon of line 556: `['keyword', 'search term', 'phrase']`. -/
def discardLexicon : List String := ["keyword", "search term", "phrase"]

/-- Line 533: the row is a header row when any lexicon token occurs in the
lowercased first cell. -/
def isHeaderRow (cellTexts : List String) : Bool :=
  match cellTexts with
  | [] => false
  | c0 :: _ => headerLexicon.any (fun h => strContainsSub (pyLower c0) h)

/-- Line 539: a row is skipped when no cell is non-empty and
non-placeholder (Python truthiness of `cell_text.strip()`). -/
def rowHasContent (cellTexts : List String) : Bool :=
  cellTexts.any (fun c => !(c == "") && !(placeholderCells.contains c))

/-- Lines 546-551: build the record from the stripped cell texts
(`cell_texts[i] if len(cell_texts) > i else "N/A"`). -/
def mkKeywordData (cellTexts : List String) : KeywordRecord :=
  { keyword := (cellTexts.getD 0 "")
    monthly_volume := (cellTexts.getD 1 "N/A")
    cpc := (cellTexts.getD 2 "N/A")
    competition := (cellTexts.getD 3 "N/A") }

/-- Lines 554-556: the record is kept only when the keyword is truthy,
longer than one character, and not a discard-lexicon token. -/
def keywordMeaningful (r : KeywordRecord) : Bool :=
  !(r.keyword == "") && decide (r.keyword.length > 1)
    && !(discardLexicon.contains (pyLower r.keyword))

/-- Lines 525-557: the per-table row loop, threading the `header_found`
flag.  Rows with zero cells are skipped (line 527); header rows set the
flag and are skipped (line 533); content-free rows are skipped
(line 539); remaining rows with at least two cells after a header yield a
record, kept when meaningful. -/
def processRows (headerFound : Bool) (rows : List (List String)) : List KeywordRecord :=
  match rows with
  | [] => []
  | row :: rest =>
    if row.isEmpty then processRows headerFound rest
    else
      let cellTexts := row.map pyStrip
      if isHeaderRow cellTexts then processRows true rest
      else if !(rowHasContent cellTexts) then processRows headerFound rest
      else if headerFound && decide (cellTexts.length ≥ 2) then
        let r := mkKeywordData cellTexts
        if keywordMeaningful r then r :: processRows headerFound rest
        else processRows headerFound rest
      else processRows headerFound rest

/-- Lines 513-559: every table is processed independently with a fresh
`header_found = False`; records accumulate across tables in order. -/
def extract_keywords_from_table (tables : List (List (List String))) : List KeywordRecord :=
  (tables.map (processRows false)).flatten

/-
Industry mapper, src/modules/llm_agent.py lines 65-107
(`map_industry_to_wordstream`).  The LLM round trip
(`generate_completion`, lines 26-62) either returns a stripped response
string or raises; both outcomes are abstracted into `LLMBehavior`.
-/

/-- Outcome of the `generate_completion` call as observed by the caller:
either a response string is returned, or an exception is raised. -/
inductive LLMBehavior where
  | responds (answer : String)
  | raises
deriving DecidableEq

/-- Valid WordStream industries, llm_agent.py lines 72-78. -/
def valid_industries : List String :=
  ["Automotive", "Beauty & Personal Care", "Business Services", "Education",
   "Finance & Insurance", "Health & Medical", "Home & Garden", "Legal Services",
   "Real Estate", "Retail & E-commerce", "Technology", "Travel & Hospitality",
   "Food & Beverage", "Entertainment", "Non-profit", "Construction",
   "Manufacturing", "Agriculture", "Sports & Recreation"]

/-- Default label returned on empty input, LLM error, or invalid answer. -/
def businessServices : String := "Business Services"

/-- llm_agent.py lines 65-107: empty or whitespace-only input returns the
default (line 67); an LLM exception returns the default (lines 104-107);
a response is kept only when it is a valid industry (lines 97-102). -/
def map_industry_to_wordstream (industry : String) (llm : LLMBehavior) : String :=
  if industry == "" || pyStrip industry == "" then businessServices
  else
    match llm with
    | .raises => businessServices
    | .responds mapped_industry =>
      if valid_industries.contains mapped_industry then mapped_industry
      else businessServices

/-
Field fillers and submission step, src/modules/keyword_collector.py
lines 9-241.  A live page is abstracted into an oracle `FPage` giving the
outcome of each Playwright primitive the fillers use.  Python exceptions
are modelled as `Except.error ()`; every primitive that can raise is given
a Boolean success oracle.  `page.wait_for_selector(sel, timeout,
state="visible")` (the default state) returns an element handle when one
becomes visible within the timeout and raises otherwise — it never
returns `None` for the visible state.  Each modelled function also
returns the list of DOM interactions it performed, in order.
-/

/-- Element handle state as observed through `is_visible`/`is_enabled`. -/
structure Elem where
  visible : Bool
  enabled : Bool
deriving DecidableEq

/-- One DOM interaction performed on the page. -/
inductive DomAct where
  | waitForSelector (sel : String) (timeoutMs : Nat)
  | clickElem (sel : String)
  | press (key : String)
  | selectTextOn (sel : String)
  | typeInto (sel : String) (text : String)
  | waitMs (ms : Nat)
deriving DecidableEq

/-- Page oracle: outcome of each Playwright primitive.  Elements are
identified by the selector that resolved them. -/
structure FPage where
  waitSel : String → Nat → Option Elem
  clickOk : String → Bool
  pressOk : String → Bool
  selTextOk : String → Bool
  typeOk : String → String → Bool

/-- Key names used by `page.keyboard.press`. -/
def escapeKey : String := "Escape"

/-- Key used to confirm a typed autocomplete value (lines 197, 205). -/
def tabKey : String := "Tab"

/-- Key used to clear the location input (line 160). -/
def deleteKey : String := "Delete"

/-- Website input candidates, lines 14-19. -/
def websiteSelectors : List String :=
  ["input[name=\"websiteURLOrKeyword\"]",
   "input[data-testid=\"websiteURLOrKeyword\"]",
   ".MuiInputBase-input",
   "input[type=\"text\"]"]

/-- Industry dropdown candidates, lines 59-64. -/
def industrySelectors : List String :=
  ["[aria-label=\"industry\"]",
   "div[role=\"combobox\"] .MuiSelect-select",
   ".MuiSelect-select",
   ".sc-jYGMYt.sc-igAlAF.eZHANI.kHFAsD.MuiSelect-select"]

/-- Dropdown menu-item candidates parameterized by the target text,
lines 87-92. -/
def menuSelectors (v : String) : List String :=
  ["li[role=\"option\"]:has-text(\"" ++ v ++ "\")",
   ".MuiMenuItem-root:has-text(\"" ++ v ++ "\")",
   "[role=\"option\"]:has-text(\"" ++ v ++ "\")",
   "li:has-text(\"" ++ v ++ "\")"]

/-- Location autocomplete input candidates, lines 132-138. -/
def locationSelectors : List String :=
  ["[aria-label=\"location\"] input",
   "input[aria-autocomplete=\"list\"]",
   ".MuiAutocomplete-input",
   "input[role=\"combobox\"]",
   "input[type=\"text\"][autocomplete=\"off\"]"]

/-- Autocomplete suggestion candidates parameterized by the typed text,
lines 170-177. -/
def autocompleteSelectors (v : String) : List String :=
  ["[role=\"option\"]:has-text(\"" ++ v ++ "\")",
   "[role=\"option\"]",
   ".MuiAutocomplete-option:has-text(\"" ++ v ++ "\")",
   ".MuiAutocomplete-option",
   "li[role=\"option\"]:has-text(\"" ++ v ++ "\")",
   "li[role=\"option\"]"]

/-- The shared per-candidate resolution loop (lines 22-29, 67-74,
141-148): try each selector with `wait_for_selector(sel, 2000,
state="visible")`; a raise (timeout) moves to the next candidate; the
first resolved element is returned, identified by its selector. -/
def resolveFirst (pg : FPage) (sels : List String) (timeoutMs : Nat) :
    Option String × List DomAct :=
  match sels with
  | [] => (none, [])
  | s :: rest =>
    match pg.waitSel s timeoutMs with
    | some _ => (some s, [DomAct.waitForSelector s timeoutMs])
    | none =>
      let (r, tr) := resolveFirst pg rest timeoutMs
      (r, DomAct.waitForSelector s timeoutMs :: tr)

/-- A `try`/`except` whose handler only returns a constant (lines 45-47,
119-121, 208-210, 239-241). -/
def pyTryConst (body : Except Unit Bool × List DomAct) (fallback : Bool) :
    Except Unit Bool × List DomAct :=
  match body with
  | (Except.ok b, tr) => (Except.ok b, tr)
  | (Except.error _, tr) => (Except.ok fallback, tr)

/-- Option-clicking loop shared by the dropdown menu (lines 94-105) and
the autocomplete suggestions (lines 179-192): wait 3000ms for each
candidate; on resolution, click it (a raise during the click moves to the
next candidate), settle 1000ms, and report success. -/
def optionLoop (pg : FPage) (sels : List String) : Bool × List DomAct :=
  match sels with
  | [] => (false, [])
  | s :: rest =>
    match pg.waitSel s 3000 with
    | none =>
      let (r, tr) := optionLoop pg rest
      (r, DomAct.waitForSelector s 3000 :: tr)
    | some _ =>
      if pg.clickOk s then
        (true, [DomAct.waitForSelector s 3000, DomAct.clickElem s, DomAct.waitMs 1000])
      else
        let (r, tr) := optionLoop pg rest
        (r, DomAct.waitForSelector s 3000 :: DomAct.clickElem s :: tr)

/-- Lines 9-47, `fill_website_field`: resolve the input, click, settle,
select existing text, type the URL, settle, succeed.  Any raise is caught
by the outer handler, which returns `False`. -/
def fill_website_field (pg : FPage) (website_url : String) :
    Except Unit Bool × List DomAct :=
  pyTryConst
    (match resolveFirst pg websiteSelectors 2000 with
     | (none, tr) => (Except.ok false, tr)
     | (some sel, tr) =>
       let tr := tr ++ [DomAct.clickElem sel]
       if !pg.clickOk sel then (Except.error (), tr)
       else
         let tr := tr ++ [DomAct.waitMs 500, DomAct.selectTextOn sel]
         if !pg.selTextOk sel then (Except.error (), tr)
         else
           let tr := tr ++ [DomAct.typeInto sel website_url]
           if !pg.typeOk sel website_url then (Except.error (), tr)
           else (Except.ok true, tr ++ [DomAct.waitMs 1000]))
    false

/-- Lines 49-121, `fill_industry_dropdown`: empty or default value is an
immediate no-op success (lines 51-53).  Otherwise resolve and open the
dropdown, then run the menu loop inside an inner `try`; when no option is
clicked, press Escape and return `False` (lines 107-110).  A raise inside
the inner `try` is handled by pressing Escape and returning `False`
(lines 114-117); a raise escaping that handler, or the open-click, is
caught by the outer handler returning `False` (lines 119-121). -/
def fill_industry_dropdown (pg : FPage) (industry_value : String) :
    Except Unit Bool × List DomAct :=
  if industry_value == "" || industry_value == "All Industries" then (Except.ok true, [])
  else
    pyTryConst
      (match resolveFirst pg industrySelectors 2000 with
       | (none, tr) => (Except.ok false, tr)
       | (some dsel, tr) =>
         let tr := tr ++ [DomAct.clickElem dsel]
         if !pg.clickOk dsel then (Except.error (), tr)
         else
           let tr := tr ++ [DomAct.waitMs 2000]
           let inner :=
             match optionLoop pg (menuSelectors industry_value) with
             | (true, tr2) => (Except.ok true, tr ++ tr2)
             | (false, tr2) =>
               let tr3 := tr ++ tr2 ++ [DomAct.press escapeKey]
               if !pg.pressOk escapeKey then (Except.error (), tr3)
               else (Except.ok false, tr3)
           match inner with
           | (Except.ok b, trI) => (Except.ok b, trI)
           | (Except.error _, trI) =>
             let trI := trI ++ [DomAct.press escapeKey]
             if !pg.pressOk escapeKey then (Except.error (), trI)
             else (Except.ok false, trI))
      false

/-- Lines 123-210, `fill_location_autocomplete`: empty value is an
immediate no-op success (lines 125-127).  Otherwise resolve the input,
click, select-all, delete, type the value, then run the suggestion loop
inside an inner `try`; when no suggestion is clicked, press Tab to
confirm the typed value and still return `True` (lines 194-200).  A raise
inside the inner `try` is handled by pressing Tab and returning `True`
(lines 202-206); a raise escaping that handler, or any earlier raise, is
caught by the outer handler returning `False` (lines 208-210). -/
def fill_location_autocomplete (pg : FPage) (location_value : String) :
    Except Unit Bool × List DomAct :=
  if location_value == "" then (Except.ok true, [])
  else
    pyTryConst
      (match resolveFirst pg locationSelectors 2000 with
       | (none, tr) => (Except.ok false, tr)
       | (some lsel, tr) =>
         let tr := tr ++ [DomAct.clickElem lsel]
         if !pg.clickOk lsel then (Except.error (), tr)
         else
           let tr := tr ++ [DomAct.waitMs 500, DomAct.selectTextOn lsel]
           if !pg.selTextOk lsel then (Except.error (), tr)
           else
             let tr := tr ++ [DomAct.press deleteKey]
             if !pg.pressOk deleteKey then (Except.error (), tr)
             else
               let tr := tr ++ [DomAct.waitMs 500, DomAct.typeInto lsel location_value]
               if !pg.typeOk lsel location_value then (Except.error (), tr)
               else
                 let tr := tr ++ [DomAct.waitMs 2000]
                 let inner :=
                   match optionLoop pg (autocompleteSelectors location_value) with
                   | (true, tr2) => (Except.ok true, tr ++ tr2)
                   | (false, tr2) =>
                     let tr3 := tr ++ tr2 ++ [DomAct.press tabKey]
                     if !pg.pressOk tabKey then (Except.error (), tr3)
                     else (Except.ok true, tr3 ++ [DomAct.waitMs 500])
                 match inner with
                 | (Except.ok b, trI) => (Except.ok b, trI)
                 | (Except.error _, trI) =>
                   let trI := trI ++ [DomAct.press tabKey]
                   if !pg.pressOk tabKey then (Except.error (), trI)
                   else (Except.ok true, trI))
      false

/-- First continue-button candidate, line 217. -/
def buttonContinueSel : String := "button[data-testid=\"buttonContinue\"]"

/-- Fallback continue-button candidate, line 222. -/
def buttonContinueTextSel : String := "button:has-text(\"Continue\")"

/-- Lines 212-241, `click_continue_button`: a single
`wait_for_selector` on the first candidate with the full timeout.  Since
that call returns a handle or raises, the `if not continue_button:`
fallback at lines 219-222 is unreachable: a timeout raises straight into
the outer handler, which returns `False` without trying the second
candidate.  A resolved button is clicked only when visible and enabled. -/
def click_continue_button (pg : FPage) (timeoutMs : Nat) :
    Except Unit Bool × List DomAct :=
  pyTryConst
    (match pg.waitSel buttonContinueSel timeoutMs with
     | none => (Except.error (), [DomAct.waitForSelector buttonContinueSel timeoutMs])
     | some btn =>
       let tr := [DomAct.waitForSelector buttonContinueSel timeoutMs]
       if !(btn.visible && btn.enabled) then (Except.ok false, tr)
       else
         let tr := tr ++ [DomAct.clickElem buttonContinueSel]
         if !pg.clickOk buttonContinueSel then (Except.error (), tr)
         else (Except.ok true, tr ++ [DomAct.waitMs 2000]))
    false

/-
Asynchronous completion waiter, keyword_collector.py lines 400-431.
Each iteration of the `while True` loop is a poll tick: tick `n` observes
the elapsed wall-clock milliseconds since `start_time` and whether any
loading-indicator selector currently matches a visible element.  When the
loop continues past a tick it sleeps `page.wait_for_timeout(3000)`, so
elapsed time grows by at least the poll interval between consecutive
ticks.
-/

/-- Line 401: `max_wait_time = 120000`. -/
def maxWaitTime : Nat := 120000

/-- Line 431: the 3000ms sleep between poll ticks. -/
def pollIntervalMs : Nat := 3000

/-- Observations available to the waiter at each poll tick. -/
structure WaitTrace where
  elapsed : Nat → Nat
  loadingVisible : Nat → Bool

/-- Lines 405-428: the loop breaks at a tick when elapsed time exceeds
the ceiling (lines 405-408) or no loading indicator is visible
(lines 426-428). -/
def tickExits (w : WaitTrace) (n : Nat) : Bool :=
  decide (w.elapsed n > maxWaitTime) || !(w.loadingVisible n)

/-- The poll loop, fuelled: returns the tick at which it breaks. -/
def waitLoop (w : WaitTrace) (fuel n : Nat) : Option Nat :=
  match fuel with
  | 0 => none
  | fuel + 1 => if tickExits w n then some n else waitLoop w fuel (n + 1)

/-
Collection orchestrator, keyword_collector.py lines 255-505
(`collect_keywords`).  The browser phase (inside `with sync_playwright`)
is modelled against an environment oracle fixing the outcome of each
phase; it returns either the extracted records or the exception that
propagates out of the `try`/`except`/`raise` at lines 479-482, together
with the ordered list of phases that were attempted.  The CSV write at
lines 486-505 happens only after the browser phase returns normally.
-/

/-- Exceptions that terminate a run. -/
inductive RunErr where
  | noBrandWebsite
  | navFailure
  | websiteFillFailure
  | continueFailure
deriving DecidableEq

/-- Run phases, in the order the orchestrator attempts them. -/
inductive RunAct where
  | navigate
  | dismissPopups
  | fillWebsite
  | deriveFormData
  | fillIndustry
  | fillLocation
  | clickContinue
  | waitForLoad
  | extractResults
  | writeCsv
deriving DecidableEq

/-- Environment oracle for one collection run. -/
structure RunEnv where
  brand_website : String
  navOk : Bool
  websiteOk : Bool
  industry : String
  location : String
  continueOk : Bool
  tableResults : Bool
  tables : List (List (List String))

/-- Lines 264-484: the browser phase.  `brand_website` missing raises
(line 266); navigation failure raises out of the `try` (lines 298-301,
479-482); popup dismissal is best-effort and never fails (lines 308-339);
website-fill failure raises (lines 346-352) before the LLM form-data
derivation (lines 355-357); industry and location fills are attempted
only for non-empty, non-default values (lines 360-369) and their failure
does not abort; continue-click failure raises (lines 375-377); extraction
runs only when a table-bearing results selector matched (lines 457-470),
otherwise the record list is empty (lines 472-477). -/
def browserPhase (env : RunEnv) : Except RunErr (List KeywordRecord) × List RunAct :=
  if env.brand_website == "" then (Except.error RunErr.noBrandWebsite, [])
  else if !env.navOk then (Except.error RunErr.navFailure, [RunAct.navigate])
  else
    let tr := [RunAct.navigate, RunAct.dismissPopups, RunAct.fillWebsite]
    if !env.websiteOk then (Except.error RunErr.websiteFillFailure, tr)
    else
      let tr := tr ++ [RunAct.deriveFormData]
      let tr := tr ++
        (if env.industry != "" && env.industry != "All Industries" then
          [RunAct.fillIndustry] else [])
      let tr := tr ++ (if env.location != "" then [RunAct.fillLocation] else [])
      let tr := tr ++ [RunAct.clickContinue]
      if !env.continueOk then (Except.error RunErr.continueFailure, tr)
      else
        let tr := tr ++ [RunAct.waitForLoad, RunAct.extractResults]
        (Except.ok
          (if env.tableResults then extract_keywords_from_table env.tables else []),
         tr)

/-- CSV column order fixed at lines 489 and 504. -/
def csvHeader : List String := ["keyword", "monthly_volume", "cpc", "competition"]

/-- File content produced at lines 486-505: both branches write the
header row; the non-empty branch additionally writes one row per
record. -/
def csvContent (keywords : List KeywordRecord) : List (List String) :=
  csvHeader :: keywords.map (fun k => [k.keyword, k.monthly_volume, k.cpc, k.competition])

/-- Lines 255-505, `collect_keywords`: a browser-phase exception
propagates to the caller and the output file is never written; on normal
completion the CSV content is written as the final step. -/
def collect_keywords (env : RunEnv) : Except RunErr (List (List String)) × List RunAct :=
  match browserPhase env with
  | (Except.error e, tr) => (Except.error e, tr)
  | (Except.ok keywords, tr) => (Except.ok (csvContent keywords), tr ++ [RunAct.writeCsv])

/-- The concrete table of the spec's extraction example. -/
def specExampleTable : List (List String) :=
  [["Keyword", "Monthly Volume"],
   ["running shoes", "1000"],
   ["-", "-"],
   ["trail shoes", ""]]

/-- A table whose second row is a data row with first cell `"keyword"`,
appearing after the canonical header row. -/
def headerEchoTable : List (List String) :=
  [["Keyword", "Volume"],
   ["keyword", "5"],
   ["nice shoes", "10"]]

/-- A page on which the exact continue-button attribute candidate never
resolves, while the visible-text fallback candidate is visible and
enabled; every other primitive succeeds. -/
def c2Page : FPage :=
  ⟨fun s _ => if s == buttonContinueTextSel then some ⟨true, true⟩ else none,
   fun _ => true, fun _ => true, fun _ => true, fun _ _ => true⟩

/-- A page on which the first industry-dropdown and location-input
candidates resolve, no menu item or suggestion ever resolves, and every
click, key press, select-text and type succeeds. -/
def allOkPage : FPage :=
  ⟨fun s _ =>
      if industrySelectors.contains s || locationSelectors.contains s then
        some ⟨true, true⟩
      else none,
   fun _ => true, fun _ => true, fun _ => true, fun _ _ => true⟩

/-- First industry-dropdown candidate, for instantiating theorems. -/
def ariaIndustrySel : String := "[aria-label=\"industry\"]"

/-- First location-input candidate, for instantiating theorems. -/
def ariaLocationSel : String := "[aria-label=\"location\"] input"

/-- Concrete industry value used by witnesses. -/
def industryVal : String := "Retail"

/-- Concrete location value used by witnesses. -/
def locationVal : String := "Pune"

/-- A poll-tick trace on which the loading indicators never disappear and
each tick is exactly one poll interval after the previous one. -/
def steadyTrace : WaitTrace :=
  ⟨fun n => pollIntervalMs * n, fun _ => true⟩

/-- A run environment whose website fill fails. -/
def webFailEnv : RunEnv :=
  ⟨"https://example.com", true, false, "", "", true, false, []⟩

/-- A run environment whose continue click fails. -/
def contFailEnv : RunEnv :=
  ⟨"https://example.com", true, true, "", "", false, false, []⟩

/-- A run environment that completes with no table results. -/
def okEmptyEnv : RunEnv :=
  ⟨"https://example.com", true, true, "", "", true, false, []⟩

/-- The phase trace of `okEmptyEnv`. -/
def okEmptyTrace : List RunAct :=
  [RunAct.navigate, RunAct.dismissPopups, RunAct.fillWebsite, RunAct.deriveFormData,
   RunAct.clickContinue, RunAct.waitForLoad, RunAct.extractResults]

/-- The phase trace of `contFailEnv`. -/
def contFailTrace : List RunAct :=
  [RunAct.navigate, RunAct.dismissPopups, RunAct.fillWebsite, RunAct.deriveFormData,
   RunAct.clickContinue]

/-- The empty string, for instantiating theorems. -/
def emptyString : String := ""

/-- The industry dropdown's known default value (lines 51-53). -/
def allIndustriesLabel : String := "All Industries"

/-
Theorems.
-/

/-- Claim C1, counterexample: on the spec's example table the extraction
does not produce the claimed pair of records — the `["trail shoes", ""]`
row keeps its present-but-empty second cell instead of `"N/A"`. -/
theorem C1_counterexample :
    extract_keywords_from_table [specExampleTable] ≠
      [⟨"running shoes", "1000", "N/A", "N/A"⟩,
       ⟨"trail shoes", "N/A", "N/A", "N/A"⟩] := by decide

/-- Claim C1, amended: on the table with rows header
`["Keyword","Monthly Volume"]`, data `["running shoes","1000"]`,
placeholder `["-","-"]`, data `["trail shoes",""]`, extraction yields
exactly the records `{running shoes, 1000, N/A, N/A}` and
`{trail shoes, "", N/A, N/A}` — a present-but-empty cell is used as-is,
and only absent cells default to `"N/A"`; the header row and the
placeholder row produce no record. -/
theorem C1_amended :
    extract_keywords_from_table [specExampleTable] =
      [⟨"running shoes", "1000", "N/A", "N/A"⟩,
       ⟨"trail shoes", "", "N/A", "N/A"⟩] := by decide

/-- Claim C2: on a page where the exact-attribute continue-button
candidate never becomes visible but the visible-text fallback candidate
is visible and enabled within its timeout, the submission step reports
failure after interrogating only the first candidate — the fallback is
never attempted, so resolution does not return the first visible
candidate of the list. -/
theorem C2_continue_fallback_unreachable :
    c2Page.waitSel buttonContinueTextSel 2000 = some ⟨true, true⟩ ∧
    (click_continue_button c2Page 5000).1 = Except.ok false ∧
    (click_continue_button c2Page 5000).2 =
      [DomAct.waitForSelector buttonContinueSel 5000] := by
  refine ⟨rfl, rfl, rfl⟩

/-- Claim C6: for every input string and every LLM behaviour the industry
mapper returns a member of the fixed valid-industry set, and returns
exactly `"Business Services"` whenever the input is empty or
whitespace-only, the LLM call raises, or the LLM's answer is not in the
valid set. -/
theorem C6_industry_mapper (industry : String) (llm : LLMBehavior) :
    valid_industries.contains (map_industry_to_wordstream industry llm) = true ∧
    ((industry = "" ∨ pyStrip industry = "" ∨ llm = LLMBehavior.raises ∨
        (∀ a, llm = LLMBehavior.responds a → valid_industries.contains a = false)) →
      map_industry_to_wordstream industry llm = businessServices) := by
  have hmem : businessServices ∈ valid_industries := by decide
  by_cases hempty : (industry == "" || pyStrip industry == "") = true
  · constructor
    · simp [map_industry_to_wordstream, hempty, hmem]
    · intro _
      simp [map_industry_to_wordstream, hempty]
  · simp only [Bool.not_eq_true] at hempty
    cases llm with
    | raises =>
      constructor
      · simp [map_industry_to_wordstream, hempty, hmem]
      · intro _
        simp [map_industry_to_wordstream, hempty]
    | responds a =>
      by_cases hval : a ∈ valid_industries
      · constructor
        · simp [map_industry_to_wordstream, hempty, hval]
        · intro h
          exfalso
          rcases h with h | h | h | h
          · rw [h] at hempty
            simp at hempty
          · rw [h] at hempty
            simp at hempty
          · exact LLMBehavior.noConfusion h
          · have hfalse := h a rfl
            simp [hval] at hfalse
      · constructor
        · simp [map_industry_to_wordstream, hempty, hval, hmem]
        · intro _
          simp [map_industry_to_wordstream, hempty, hval]

/-- Witness for C6: on empty input with a raising LLM the mapper returns
the default label. -/
theorem C6_industry_mapper_witness :
    map_industry_to_wordstream emptyString LLMBehavior.raises = businessServices :=
  (C6_industry_mapper emptyString LLMBehavior.raises).2 (Or.inl rfl)

/-- Claim C7: whenever the browser phase completes without an aborting
failure, the run succeeds and the output file holds the header row
`keyword, monthly_volume, cpc, competition` followed by one row per
extracted record; with zero records the file is header-only. -/
theorem C7_csv_output (env : RunEnv) (kws : List KeywordRecord) (tr : List RunAct)
    (h : browserPhase env = (Except.ok kws, tr)) :
    (collect_keywords env).1 =
      Except.ok (csvHeader ::
        kws.map (fun k => [k.keyword, k.monthly_volume, k.cpc, k.competition])) ∧
    (kws = [] → (collect_keywords env).1 = Except.ok [csvHeader]) := by
  constructor
  · simp [collect_keywords, h, csvContent]
  · intro hnil
    subst hnil
    simp [collect_keywords, h, csvContent]

/-- Witness for C7: a run with no table results still succeeds and writes
the header-only file. -/
theorem C7_csv_output_witness :
    (collect_keywords okEmptyEnv).1 =
      Except.ok (csvHeader ::
        ([] : List KeywordRecord).map
          (fun k => [k.keyword, k.monthly_volume, k.cpc, k.competition])) ∧
    (([] : List KeywordRecord) = [] → (collect_keywords okEmptyEnv).1 = Except.ok [csvHeader]) :=
  C7_csv_output okEmptyEnv [] okEmptyTrace rfl

/-- Claim C8: with an empty target value (industry or location filler) or
the default value `"All Industries"` (industry filler), the filler
returns success immediately and its DOM-interaction trace is empty. -/
theorem C8_noop_fillers (pg : FPage) (v loc : String)
    (hv : v = "" ∨ v = "All Industries") (hloc : loc = "") :
    fill_industry_dropdown pg v = (Except.ok true, []) ∧
    fill_location_autocomplete pg loc = (Except.ok true, []) := by
  constructor
  · rcases hv with h | h <;> subst h <;> rfl
  · subst hloc
    rfl

/-- Witness for C8: the default industry value and the empty location on
a concrete page. -/
theorem C8_noop_fillers_witness :
    fill_industry_dropdown allOkPage allIndustriesLabel = (Except.ok true, []) ∧
    fill_location_autocomplete allOkPage emptyString = (Except.ok true, []) :=
  C8_noop_fillers allOkPage allIndustriesLabel emptyString (Or.inr rfl) rfl

/-- Helper: the poll loop returns the least tick satisfying the exit
condition, given enough fuel to reach one. -/
theorem waitLoop_finds_least (w : WaitTrace) :
    ∀ (fuel start : Nat), (∃ k, k < fuel ∧ tickExits w (start + k) = true) →
      ∃ n, waitLoop w fuel start = some n ∧ tickExits w n = true ∧
        start ≤ n ∧ ∀ m, start ≤ m → m < n → tickExits w m = false := by
  intro fuel
  induction fuel with
  | zero =>
    rintro start ⟨k, hk, _⟩
    omega
  | succ fuel ih =>
    rintro start ⟨k, hk, hex⟩
    by_cases h : tickExits w start = true
    · exact ⟨start, by simp [waitLoop, h], h, Nat.le_refl _,
        fun m h1 h2 => absurd h1 (by omega)⟩
    · simp only [Bool.not_eq_true] at h
      have hk0 : k ≠ 0 := by
        rintro rfl
        rw [Nat.add_zero, h] at hex
        exact Bool.false_ne_true hex
      obtain ⟨k', rfl⟩ : ∃ k', k = k' + 1 := ⟨k - 1, by omega⟩
      have hsh : start + (k' + 1) = (start + 1) + k' := by omega
      rw [hsh] at hex
      obtain ⟨n, hloop, hex2, hge, hleast⟩ := ih (start + 1) ⟨k', by omega, hex⟩
      refine ⟨n, by simp [waitLoop, h, hloop], hex2, by omega, ?_⟩
      intro m h1 h2
      rcases Nat.eq_or_lt_of_le h1 with heq | h1'
      · rw [← heq]
        exact h
      · exact hleast m (by omega) h2

/-- Helper: with at least one poll interval of elapsed time between
consecutive ticks, tick `n` is at least `n` intervals in. -/
theorem elapsed_lower_bound (w : WaitTrace)
    (hstep : ∀ n, w.elapsed n + pollIntervalMs ≤ w.elapsed (n + 1)) :
    ∀ n, pollIntervalMs * n ≤ w.elapsed n := by
  intro n
  induction n with
  | zero => simp
  | succ n ih =>
    have hs := hstep n
    have : pollIntervalMs * (n + 1) = pollIntervalMs * n + pollIntervalMs :=
      Nat.mul_succ _ _
    omega

/-- Claim C3: on every tick trace whose elapsed time grows by at least the
poll interval per continuing tick, the completion waiter's loop exits, and
it exits exactly at the first tick at which either no loading indicator is
visible or elapsed time exceeds the 120-second ceiling; every strictly
earlier tick is within the ceiling and still shows a loading indicator, so
the loop never keeps waiting past the ceiling. -/
theorem C3_completion_waiter (w : WaitTrace)
    (hstep : ∀ n, w.elapsed n + pollIntervalMs ≤ w.elapsed (n + 1)) :
    ∃ n, waitLoop w 42 0 = some n ∧
      (w.elapsed n > maxWaitTime ∨ w.loadingVisible n = false) ∧
      ∀ m < n, w.elapsed m ≤ maxWaitTime ∧ w.loadingVisible m = true := by
  have h41 : tickExits w (0 + 41) = true := by
    have hlb := elapsed_lower_bound w hstep 41
    rw [Nat.zero_add]
    simp only [tickExits, Bool.or_eq_true, decide_eq_true_eq]
    left
    simp only [pollIntervalMs] at hlb
    simp only [maxWaitTime]
    omega
  obtain ⟨n, hloop, hex, _, hleast⟩ := waitLoop_finds_least w 42 0 ⟨41, by omega, h41⟩
  refine ⟨n, hloop, ?_, ?_⟩
  · simp only [tickExits, Bool.or_eq_true, decide_eq_true_eq, Bool.not_eq_true'] at hex
    exact hex
  · intro m hm
    have hf := hleast m (Nat.zero_le m) hm
    simp only [tickExits, Bool.or_eq_false_iff, decide_eq_false_iff_not,
      Bool.not_eq_false'] at hf
    exact ⟨by omega, hf.2⟩

/-- Witness for C3: the trace whose indicators never disappear and whose
ticks are exactly one poll interval apart. -/
theorem C3_completion_waiter_witness :
    ∃ n, waitLoop steadyTrace 42 0 = some n ∧
      (steadyTrace.elapsed n > maxWaitTime ∨ steadyTrace.loadingVisible n = false) ∧
      ∀ m < n, steadyTrace.elapsed m ≤ maxWaitTime ∧ steadyTrace.loadingVisible m = true :=
  C3_completion_waiter steadyTrace (fun n => by
    simp only [steadyTrace, Nat.mul_succ]
    omega)

/-- Claim C4: when navigation succeeds but the required website fill
fails, the orchestrator raises the website-fill failure to the caller and
never attempts the LLM form-data derivation, the industry fill, the
location fill, the form submission, or the output write. -/
theorem C4_website_abort (env : RunEnv)
    (hbw : env.brand_website ≠ "") (hnav : env.navOk = true)
    (hweb : env.websiteOk = false) :
    (collect_keywords env).1 = Except.error RunErr.websiteFillFailure ∧
    RunAct.deriveFormData ∉ (collect_keywords env).2 ∧
    RunAct.fillIndustry ∉ (collect_keywords env).2 ∧
    RunAct.fillLocation ∉ (collect_keywords env).2 ∧
    RunAct.clickContinue ∉ (collect_keywords env).2 ∧
    RunAct.writeCsv ∉ (collect_keywords env).2 := by
  have h1 : (env.brand_website == "") = false := by
    simp [hbw]
  have hcoll : collect_keywords env =
      (Except.error RunErr.websiteFillFailure,
       [RunAct.navigate, RunAct.dismissPopups, RunAct.fillWebsite]) := by
    simp [collect_keywords, browserPhase, h1, hnav, hweb]
  rw [hcoll]
  exact ⟨rfl, by decide, by decide, by decide, by decide, by decide⟩

/-- Witness for C4: a concrete environment whose website fill fails. -/
theorem C4_website_abort_witness :
    (collect_keywords webFailEnv).1 = Except.error RunErr.websiteFillFailure ∧
    RunAct.deriveFormData ∉ (collect_keywords webFailEnv).2 ∧
    RunAct.fillIndustry ∉ (collect_keywords webFailEnv).2 ∧
    RunAct.fillLocation ∉ (collect_keywords webFailEnv).2 ∧
    RunAct.clickContinue ∉ (collect_keywords webFailEnv).2 ∧
    RunAct.writeCsv ∉ (collect_keywords webFailEnv).2 :=
  C4_website_abort webFailEnv (by decide) rfl rfl

/-- Helper: the browser phase never performs the CSV write. -/
theorem writeCsv_not_in_browserPhase (env : RunEnv) :
    RunAct.writeCsv ∉ (browserPhase env).2 := by
  unfold browserPhase
  by_cases h1 : (env.brand_website == "") = true
  · simp [h1]
  · simp only [Bool.not_eq_true] at h1
    by_cases h2 : env.navOk = true
    · by_cases h3 : env.websiteOk = true
      · by_cases h4 : env.continueOk = true
        · by_cases h5 : (env.industry != "" && env.industry != "All Industries") = true
          · by_cases h6 : (env.location != "") = true
            · simp [h1, h2, h3, h4, h5, h6]
            · simp only [Bool.not_eq_true] at h6
              simp [h1, h2, h3, h4, h5, h6]
          · simp only [Bool.not_eq_true] at h5
            by_cases h6 : (env.location != "") = true
            · simp [h1, h2, h3, h4, h5, h6]
            · simp only [Bool.not_eq_true] at h6
              simp [h1, h2, h3, h4, h5, h6]
        · simp only [Bool.not_eq_true] at h4
          by_cases h5 : (env.industry != "" && env.industry != "All Industries") = true
          · by_cases h6 : (env.location != "") = true
            · simp [h1, h2, h3, h4, h5, h6]
            · simp only [Bool.not_eq_true] at h6
              simp [h1, h2, h3, h4, h5, h6]
          · simp only [Bool.not_eq_true] at h5
            by_cases h6 : (env.location != "") = true
            · simp [h1, h2, h3, h4, h5, h6]
            · simp only [Bool.not_eq_true] at h6
              simp [h1, h2, h3, h4, h5, h6]
      · simp only [Bool.not_eq_true] at h3
        simp [h1, h2, h3]
    · simp only [Bool.not_eq_true] at h2
      simp [h1, h2]

/-- Claim C10: a browser-phase exception propagates unchanged to the
caller of `collect_keywords` and the output CSV is never written (no
write action occurs in the run's trace); conversely, on a browser phase
completing normally, the write is the run's final action — the write
happens only after the browser phase finishes without an aborting
exception. -/
theorem C10_no_write_on_failure (env : RunEnv) :
    (∀ e tr, browserPhase env = (Except.error e, tr) →
      collect_keywords env = (Except.error e, tr) ∧ RunAct.writeCsv ∉ tr) ∧
    (∀ kws tr, browserPhase env = (Except.ok kws, tr) →
      (collect_keywords env).2 = tr ++ [RunAct.writeCsv]) := by
  constructor
  · intro e tr h
    refine ⟨by simp [collect_keywords, h], ?_⟩
    have hw := writeCsv_not_in_browserPhase env
    rw [h] at hw
    exact hw
  · intro kws tr h
    simp [collect_keywords, h]

/-- Witness for C10: a run whose submission click fails propagates the
failure and performs no write. -/
theorem C10_no_write_on_failure_witness :
    collect_keywords contFailEnv = (Except.error RunErr.continueFailure, contFailTrace) ∧
    RunAct.writeCsv ∉ contFailTrace :=
  (C10_no_write_on_failure contFailEnv).1 RunErr.continueFailure contFailTrace rfl

/-- Helper: every record produced by the per-table row loop passed the
meaningful-keyword filter. -/
theorem mem_processRows_meaningful (r : KeywordRecord) :
    ∀ (rows : List (List String)) (hf : Bool), r ∈ processRows hf rows →
      keywordMeaningful r = true := by
  intro rows
  induction rows with
  | nil =>
    intro hf hr
    simp [processRows] at hr
  | cons row rest ih =>
    intro hf hr
    simp only [processRows] at hr
    split at hr
    · exact ih hf hr
    · split at hr
      · exact ih true hr
      · split at hr
        · exact ih hf hr
        · split at hr
          · split at hr
            · rcases List.mem_cons.mp hr with heq | hmem
              · rename_i hmean
                rw [heq]
                exact hmean
              · exact ih hf hmem
            · exact ih hf hr
          · exact ih hf hr

/-- Claim C5: every record emitted by the extractor has a keyword that is
non-empty, of length strictly greater than one, and not one of the
header-lexicon tokens `keyword`, `search term`, `phrase`; in particular
no emitted record's keyword equals `"keyword"` case-insensitively, even
for a data row appearing after the table's canonical header row. -/
theorem C5_keyword_invariant (tables : List (List (List String)))
    (r : KeywordRecord) (hr : r ∈ extract_keywords_from_table tables) :
    r.keyword ≠ "" ∧ r.keyword.length > 1 ∧
      discardLexicon.contains (pyLower r.keyword) = false ∧
      pyLower r.keyword ≠ "keyword" := by
  have hmean : keywordMeaningful r = true := by
    rw [extract_keywords_from_table] at hr
    rcases List.mem_flatten.mp hr with ⟨l, hl, hrl⟩
    rcases List.mem_map.mp hl with ⟨t, _, hteq⟩
    rw [← hteq] at hrl
    exact mem_processRows_meaningful r t false hrl
  rw [keywordMeaningful] at hmean
  simp only [Bool.and_eq_true, Bool.not_eq_true', beq_eq_false_iff_ne, ne_eq,
    decide_eq_true_eq] at hmean
  obtain ⟨⟨h1, h2⟩, h3⟩ := hmean
  refine ⟨h1, h2, h3, ?_⟩
  intro he
  rw [he] at h3
  exact absurd h3 (by decide)

/-- Witness for C5: the record extracted from a table containing a
post-header data row whose first cell is `"keyword"`. -/
theorem C5_keyword_invariant_witness :
    (⟨"nice shoes", "10", "N/A", "N/A"⟩ : KeywordRecord).keyword ≠ "" ∧
    (⟨"nice shoes", "10", "N/A", "N/A"⟩ : KeywordRecord).keyword.length > 1 ∧
    discardLexicon.contains
      (pyLower (⟨"nice shoes", "10", "N/A", "N/A"⟩ : KeywordRecord).keyword) = false ∧
    pyLower (⟨"nice shoes", "10", "N/A", "N/A"⟩ : KeywordRecord).keyword ≠ "keyword" :=
  C5_keyword_invariant [headerEchoTable] ⟨"nice shoes", "10", "N/A", "N/A"⟩ (by decide)

/-- Helper: a `try` whose handler returns a constant yields a normal
Boolean result for every body outcome. -/
theorem pyTryConst_ok (body : Except Unit Bool × List DomAct) (c : Bool) :
    ∃ b tr, pyTryConst body c = (Except.ok b, tr) := by
  rcases body with ⟨res, tr⟩
  cases res with
  | ok b => exact ⟨b, tr, rfl⟩
  | error e => exact ⟨c, tr, rfl⟩

/-- Claim C9: for every page behaviour and every input value, each of the
three interaction helpers returns a Boolean outcome and propagates no
exception; moreover, when the dropdown opens but no menu item matching
the value can be clicked, the dropdown filler presses Escape and returns
failure, and when the location input is filled but no suggestion can be
clicked, the autocomplete filler presses Tab to confirm the typed value
and still returns success. -/
theorem C9_filler_error_boundaries (pg : FPage) (url v loc : String) :
    (∃ b tr, fill_website_field pg url = (Except.ok b, tr)) ∧
    (∃ b tr, fill_industry_dropdown pg v = (Except.ok b, tr)) ∧
    (∃ b tr, fill_location_autocomplete pg loc = (Except.ok b, tr)) ∧
    (∀ dsel, v ≠ "" → v ≠ "All Industries" →
      (resolveFirst pg industrySelectors 2000).1 = some dsel →
      pg.clickOk dsel = true →
      (optionLoop pg (menuSelectors v)).1 = false →
      pg.pressOk escapeKey = true →
      (fill_industry_dropdown pg v).1 = Except.ok false ∧
      DomAct.press escapeKey ∈ (fill_industry_dropdown pg v).2) ∧
    (∀ lsel, loc ≠ "" →
      (resolveFirst pg locationSelectors 2000).1 = some lsel →
      pg.clickOk lsel = true → pg.selTextOk lsel = true →
      pg.pressOk deleteKey = true → pg.typeOk lsel loc = true →
      (optionLoop pg (autocompleteSelectors loc)).1 = false →
      pg.pressOk tabKey = true →
      (fill_location_autocomplete pg loc).1 = Except.ok true ∧
      DomAct.press tabKey ∈ (fill_location_autocomplete pg loc).2) := by
  refine ⟨?_, ?_, ?_, ?_, ?_⟩
  · unfold fill_website_field
    exact pyTryConst_ok _ _
  · unfold fill_industry_dropdown
    split
    · exact ⟨true, [], rfl⟩
    · exact pyTryConst_ok _ _
  · unfold fill_location_autocomplete
    split
    · exact ⟨true, [], rfl⟩
    · exact pyTryConst_ok _ _
  · intro dsel hv1 hv2 hres1 hclick hmenu hesc
    rcases hres : resolveFirst pg industrySelectors 2000 with ⟨o, tr0⟩
    rw [hres] at hres1
    rcases hml : optionLoop pg (menuSelectors v) with ⟨f, tr2⟩
    rw [hml] at hmenu
    simp only at hres1 hmenu
    subst hres1
    subst hmenu
    constructor
    · simp [fill_industry_dropdown, pyTryConst, hv1, hv2, hres, hml, hclick, hesc]
    · simp [fill_industry_dropdown, pyTryConst, hv1, hv2, hres, hml, hclick, hesc]
  · intro lsel hloc hres1 hclick hseltext hdel htype hauto htab
    rcases hres : resolveFirst pg locationSelectors 2000 with ⟨o, tr0⟩
    rw [hres] at hres1
    rcases hml : optionLoop pg (autocompleteSelectors loc) with ⟨f, tr2⟩
    rw [hml] at hauto
    simp only at hres1 hauto
    subst hres1
    subst hauto
    constructor
    · simp [fill_location_autocomplete, pyTryConst, hloc, hres, hml, hclick,
        hseltext, hdel, htype, htab]
    · simp [fill_location_autocomplete, pyTryConst, hloc, hres, hml, hclick,
        hseltext, hdel, htype, htab]

/-- Witness for C9: on a concrete page whose dropdown and location input
resolve but whose menu items and suggestions never appear, the dropdown
filler presses Escape and fails while the autocomplete filler presses Tab
and succeeds. -/
theorem C9_filler_error_boundaries_witness :
    ((fill_industry_dropdown allOkPage industryVal).1 = Except.ok false ∧
      DomAct.press escapeKey ∈ (fill_industry_dropdown allOkPage industryVal).2) ∧
    ((fill_location_autocomplete allOkPage locationVal).1 = Except.ok true ∧
      DomAct.press tabKey ∈ (fill_location_autocomplete allOkPage locationVal).2) :=
  ⟨(C9_filler_error_boundaries allOkPage emptyString industryVal locationVal).2.2.2.1
      ariaIndustrySel (by decide) (by decide) (by decide) rfl (by decide) rfl,
   (C9_filler_error_boundaries allOkPage emptyString industryVal locationVal).2.2.2.2
      ariaLocationSel (by decide) (by decide) rfl rfl rfl rfl (by decide) rfl⟩
